import Mathlib

/-!
Verification development for the `ctru-rs` repository slice consisting of
`ctru-sys/src/services/ndm.rs` (raw bindings for the NDM service) and
`ctru-rs/examples/ir-user-skylander-portal.rs` (the ir:USER Skylander demo).

The example program is embedded as a set of interpreters over an oracle
environment `Env`: every foreign call (libctru / ir:USER wrapper / HID / APT /
GFX) obtains its outcome from the environment, indexed by a per-call counter
held in `OracleState`, and the interpreter records the sequence of foreign
calls it makes as a trace of `Ev` events.  Unbounded `loop`s in the Rust
source become fuel-indexed recursion; `expect`-style aborts become the
`StepRes.panicked` outcome.
-/

namespace CtruSkylander

/-! ## Raw binding layer: `ctru-sys/src/services/ndm.rs` -/

/-- The `NDM_ExclusiveState` enum of `ctru-sys/src/services/ndm.rs`,
a `#[repr(u32)]` C-style enumeration. -/
inductive NDM_ExclusiveState where
  | EXCLUSIVE_STATE_NONE
  | EXCLUSIVE_STATE_INFRASTRUCTURE
  | EXCLUSIVE_STATE_LOCAL_COMMUNICATIONS
  | EXCLUSIVE_STATE_STREETPASS
  | EXCLUSIVE_STATE_STREETPASS_DATA
deriving DecidableEq, Repr, Fintype

/-- The `u32` discriminant of each `NDM_ExclusiveState` variant, as written in
the Rust source (`EXCLUSIVE_STATE_NONE = 0`, ... , `EXCLUSIVE_STATE_STREETPASS_DATA = 4`). -/
def NDM_ExclusiveState.toU32 : NDM_ExclusiveState → Nat
  | .EXCLUSIVE_STATE_NONE => 0
  | .EXCLUSIVE_STATE_INFRASTRUCTURE => 1
  | .EXCLUSIVE_STATE_LOCAL_COMMUNICATIONS => 2
  | .EXCLUSIVE_STATE_STREETPASS => 3
  | .EXCLUSIVE_STATE_STREETPASS_DATA => 4

/-- C-level types that appear in the `ndm.rs` extern declarations:
`Result` (the libctru result code), `NDM_ExclusiveState`, and the unit
return type of `ndmuExit`. -/
inductive CTy where
  | resultCode
  | ndmExclusiveState
  | unitTy
deriving DecidableEq, Repr

/-- A foreign function declaration: a name, argument types, and a return
type.  A declaration carries no body, mirroring an `extern "C"` item. -/
structure ExternDecl where
  name : String
  args : List CTy
  ret : CTy
deriving DecidableEq, Repr

/-- The `extern "C"` block of `ctru-sys/src/services/ndm.rs`, transcribed
declaration by declaration in source order. -/
def ndmExternDecls : List ExternDecl :=
  [ ⟨"ndmuInit", [], .resultCode⟩,
    ⟨"ndmuExit", [], .unitTy⟩,
    ⟨"ndmuEnterExclusiveState", [.ndmExclusiveState], .resultCode⟩,
    ⟨"ndmuLeaveExclusiveState", [], .resultCode⟩ ]

/-! ## The `hidShouldUseIrrst` export of the example -/

/-- The `hidShouldUseIrrst` function exported (`#[no_mangle]`) by
`ir-user-skylander-portal.rs`: it takes no arguments and returns `false`
unconditionally. -/
def hidShouldUseIrrst : Bool := false

/-- Modelled from the spec: libctru (the external native library, not part of
this source tree) consults the exported `hidShouldUseIrrst` when HID is set up
and brings up the ir:rst service exactly when that call returns `true`; the
example's comment states the export exists so that ir:rst, which is mutually
exclusive with ir:USER, is never brought up. -/
def libctruBringsUpIrrst : Bool := hidShouldUseIrrst

/-! ## Oracle environment for the example's foreign calls -/

/-- An IR packet as the example sees it: an opaque sequence of bytes.  The
example never inspects these bytes itself; only the external parser does. -/
abbrev Packet := List Nat

/-- Modelled from the spec: the typed error produced by the safe wrapper
layer (not part of this source tree), which translates the native library's
integer result codes into typed outcomes.  It carries the raw code. -/
structure IrError where
  code : Int
deriving DecidableEq, Repr

/-- Modelled from the spec: the connection-status field of the ir:USER status
info returned by the safe wrapper.  The example only ever compares it against
`Connected`, so the model keeps one constructor for that value and one for
every other status. -/
inductive ConnectionStatus where
  | Connected
  | NotConnected
deriving DecidableEq, Repr

/-- Outcome of `Handle::wait_for_event`: success, a timeout error
(`e.is_timeout()`), or a non-timeout error. -/
inductive EventWaitResult where
  | ok
  | timedOut
  | failed
deriving DecidableEq, Repr

/-- The keys the example reads after a `hid.scan_input()` call: whether Start
is held (`keys_held`) and whether A went down this frame (`keys_down`). -/
structure InputState where
  start_held : Bool
  a_down : Bool
deriving DecidableEq, Repr

/-- The oracle environment: one response stream per foreign call site, indexed
by how many times that call has been made.  Every decision the example takes
is a function of these responses. -/
structure Env where
  aptML : Nat → Bool
  scan : Nat → InputState
  recvWait : Nat → EventWaitResult
  sendWait : Nat → EventWaitResult
  connWait : Nat → EventWaitResult
  statusInfo : Nat → ConnectionStatus
  getPacketsR : Nat → Except IrError (List Packet)
  parseCpp : Packet → Except IrError Unit
  releaseR : Nat → Except IrError Unit
  disconnectR : Nat → Except IrError Unit
  irInitR : Except IrError Unit
  recvEventR : Except IrError Nat
  sendEventR : Except IrError Nat
  connEventR : Except IrError Nat

/-- Per-call-site counters: how many times each foreign call has been made so
far.  Each call consumes the next element of its response stream. -/
structure OracleState where
  aptChecks : Nat
  scans : Nat
  recvWaits : Nat
  sendWaits : Nat
  connWaits : Nat
  statusGets : Nat
  getPacketsCalls : Nat
  releaseCalls : Nat
  disconnects : Nat
deriving DecidableEq, Repr

/-- The all-zero initial oracle state. -/
def OracleState.zero : OracleState := ⟨0, 0, 0, 0, 0, 0, 0, 0, 0⟩

/-- Trace events: one per foreign call the example makes, recording the
response where the example branches on it.  `handleCall` and `connectCall`
mark entry into `handle_packets` and `connect_to_portal`. -/
inductive Ev where
  | aptCheck (ok : Bool)
  | scanInput (i : InputState)
  | waitRecv (ms : Nat) (r : EventWaitResult)
  | waitSend (ms : Nat) (r : EventWaitResult)
  | waitConn (ms : Nat) (r : EventWaitResult)
  | statusRead (s : ConnectionStatus)
  | getPacketsEv (count : Option Nat)
  | parseEv (ok : Bool)
  | sharedMemEv
  | releaseEv (count : Nat)
  | disconnectEv
  | handleCall
  | connectCall
  | vblank
  | irInitEv (ok : Bool)
  | recvEventEv (ok : Bool)
  | sendEventEv (ok : Bool)
  | connEventEv (ok : Bool)
deriving DecidableEq, Repr

/-- Result of running a fragment of the example: normal completion, an abort
via `expect`/`panic` with its message, or fuel exhaustion (the Rust loop would
still be running). -/
inductive StepRes (α : Type) where
  | ok (a : α)
  | panicked (msg : String)
  | fuelOut
deriving DecidableEq, Repr

/-- A run outcome: result, final oracle state, and the trace of foreign calls
made, in order. -/
structure RunOut (α : Type) where
  res : StepRes α
  st : OracleState
  tr : List Ev
deriving DecidableEq, Repr

/-! ## `SkylanderPortalDemo::handle_packets` -/

/-- `SkylanderPortalDemo::handle_packets`: fetch the received packets
(`expect` on failure), return early when there are none, otherwise read the
status info, parse the last packet as a CirclePadPro response (`expect` on
failure), dump the shared-memory receive buffer, and release exactly
`packets.len()` packets (`expect` on failure). -/
def handlePackets (env : Env) (s : OracleState) : RunOut Unit :=
  let gp := env.getPacketsR s.getPacketsCalls
  let s1 : OracleState := { s with getPacketsCalls := s.getPacketsCalls + 1 }
  match gp with
  | .error _ => ⟨.panicked "Packets should be well formed", s1, [.getPacketsEv none]⟩
  | .ok packets =>
    let t0 : List Ev := [.getPacketsEv (some packets.length)]
    match packets.getLast? with
    | none => ⟨.ok (), s1, t0⟩
    | some lastPacket =>
      let stInfo := env.statusInfo s1.statusGets
      let s2 : OracleState := { s1 with statusGets := s1.statusGets + 1 }
      match env.parseCpp lastPacket with
      | .error _ =>
        ⟨.panicked "Failed to parse CPP response from IR packet", s2,
          t0 ++ [.statusRead stInfo, .parseEv false]⟩
      | .ok _ =>
        let s3 : OracleState := { s2 with releaseCalls := s2.releaseCalls + 1 }
        let t1 : List Ev :=
          t0 ++ [.statusRead stInfo, .parseEv true, .sharedMemEv, .releaseEv packets.length]
        match env.releaseR s2.releaseCalls with
        | .error _ => ⟨.panicked "Failed to release ir:USER packet", s3, t1⟩
        | .ok _ => ⟨.ok (), s3, t1⟩

/-- Recognizer for release events, used to count `release_received_data`
calls in a trace. -/
def Ev.isRelease : Ev → Bool
  | .releaseEv _ => true
  | _ => false

/-! ## `SkylanderPortalDemo::connect_to_portal` -/

/-- The `ConnectionResult` enum of the example. -/
inductive ConnectionResult where
  | Connected
  | Canceled
deriving DecidableEq, Repr

/-- How the first (connection) loop of `connect_to_portal` ends when it ends
normally: canceled by Start, or broken out of after observing
`ConnectionStatus::Connected`. -/
inductive Loop1Exit where
  | canceled
  | connectedBreak
deriving DecidableEq, Repr

/-- How the second (first-packet) loop of `connect_to_portal` ends when it
ends normally: canceled by Start, or the first packet was received and
handled. -/
inductive Loop2Exit where
  | canceled
  | gotFirstPacket
deriving DecidableEq, Repr

/-- `print_status_info`: selects the top console, clears it, and prints the
result of one `get_status_info` call.  The only foreign response it consumes
is that status read. -/
def printStatusInfo (env : Env) (s : OracleState) : ConnectionStatus × OracleState :=
  (env.statusInfo s.statusGets, { s with statusGets := s.statusGets + 1 })

/-- The first loop of `connect_to_portal` (the connection loop), with the
wait duration `d` (100 in the source) as a parameter: scan input and return
`Canceled` when Start is held; wait on the connection-status event, aborting
on a non-timeout error; print the status info; break when the status info
reads `Connected`; otherwise disconnect (aborting on error), wait for the
disconnect on the same event (aborting on a non-timeout error), and retry. -/
def connectLoop1 (d : Nat) (env : Env) : Nat → OracleState → RunOut Loop1Exit
  | 0, s => ⟨.fuelOut, s, []⟩
  | fuel + 1, s =>
    let i := env.scan s.scans
    let s1 : OracleState := { s with scans := s.scans + 1 }
    if i.start_held then ⟨.ok .canceled, s1, [.scanInput i]⟩
    else
      let w := env.connWait s1.connWaits
      let s2 : OracleState := { s1 with connWaits := s1.connWaits + 1 }
      let t2 : List Ev := [.scanInput i, .waitConn d w]
      if w = .failed then ⟨.panicked "ir:USER connection setup error", s2, t2⟩
      else
        let (stP, s3) := printStatusInfo env s2
        let stD := env.statusInfo s3.statusGets
        let s4 : OracleState := { s3 with statusGets := s3.statusGets + 1 }
        let t4 : List Ev := t2 ++ [.statusRead stP, .statusRead stD]
        if stD = .Connected then ⟨.ok .connectedBreak, s4, t4⟩
        else
          let s5 : OracleState := { s4 with disconnects := s4.disconnects + 1 }
          let t5 : List Ev := t4 ++ [.disconnectEv]
          match env.disconnectR s4.disconnects with
          | .error _ => ⟨.panicked "failed to disconnect Skylander connection", s5, t5⟩
          | .ok _ =>
            let w2 := env.connWait s5.connWaits
            let s6 : OracleState := { s5 with connWaits := s5.connWaits + 1 }
            let t6 : List Ev := t5 ++ [.waitConn d w2]
            if w2 = .failed then ⟨.panicked "ir:USER connection setup error", s6, t6⟩
            else
              let r := connectLoop1 d env fuel s6
              ⟨r.res, r.st, t6 ++ r.tr⟩

/-- The second loop of `connect_to_portal` (the first-packet retry loop),
with the wait duration `d` (100 in the source) as a parameter: scan input and
return `Canceled` when Start is held; wait on the receive-packet event; print
the status info; when the wait succeeded, handle the packets and finish,
otherwise retry. -/
def connectLoop2 (d : Nat) (env : Env) : Nat → OracleState → RunOut Loop2Exit
  | 0, s => ⟨.fuelOut, s, []⟩
  | fuel + 1, s =>
    let i := env.scan s.scans
    let s1 : OracleState := { s with scans := s.scans + 1 }
    if i.start_held then ⟨.ok .canceled, s1, [.scanInput i]⟩
    else
      let w := env.recvWait s1.recvWaits
      let s2 : OracleState := { s1 with recvWaits := s1.recvWaits + 1 }
      let (stP, s3) := printStatusInfo env s2
      let t3 : List Ev := [.scanInput i, .waitRecv d w, .statusRead stP]
      if w = .ok then
        let hp := handlePackets env s3
        let res2 : StepRes Loop2Exit :=
          match hp.res with
          | .ok _ => .ok .gotFirstPacket
          | .panicked m => .panicked m
          | .fuelOut => .fuelOut
        ⟨res2, hp.st, t3 ++ .handleCall :: hp.tr⟩
      else
        let r := connectLoop2 d env fuel s3
        ⟨r.res, r.st, t3 ++ r.tr⟩

/-- `SkylanderPortalDemo::connect_to_portal`, with the wait duration `d`
(100 ms in the source) as a parameter: run the connection loop, then the
first-packet loop, mapping either loop's cancellation to `Canceled` and
success of the second loop to `Connected`. -/
def connectToPortal (d : Nat) (env : Env) (fuel : Nat) (s : OracleState) :
    RunOut ConnectionResult :=
  let r1 := connectLoop1 d env fuel s
  match r1.res with
  | .ok .canceled => ⟨.ok .Canceled, r1.st, r1.tr⟩
  | .panicked m => ⟨.panicked m, r1.st, r1.tr⟩
  | .fuelOut => ⟨.fuelOut, r1.st, r1.tr⟩
  | .ok .connectedBreak =>
    let r2 := connectLoop2 d env fuel r1.st
    match r2.res with
    | .ok .canceled => ⟨.ok .Canceled, r2.st, r1.tr ++ r2.tr⟩
    | .ok .gotFirstPacket => ⟨.ok .Connected, r2.st, r1.tr ++ r2.tr⟩
    | .panicked m => ⟨.panicked m, r2.st, r1.tr ++ r2.tr⟩
    | .fuelOut => ⟨.fuelOut, r2.st, r1.tr ++ r2.tr⟩

/-! ## The `main` loop of the example -/

/-- Sequencing of two run fragments: when the first completes normally, the
second runs from its final state and the traces concatenate; a panic or fuel
exhaustion in the first aborts the rest, as in the Rust control flow. -/
def RunOut.andThen (r : RunOut Unit) (k : OracleState → RunOut Unit) : RunOut Unit :=
  match r.res with
  | .ok _ => ⟨(k r.st).res, (k r.st).st, r.tr ++ (k r.st).tr⟩
  | .panicked m => ⟨.panicked m, r.st, r.tr⟩
  | .fuelOut => ⟨.fuelOut, r.st, r.tr⟩

/-- The receive-event poll of one `main` loop iteration: a zero-timeout wait
on the receive-packet event, followed by `handle_packets` when it fired. -/
def pollRecvStage (dz : Nat) (env : Env) (s : OracleState) : RunOut Unit :=
  let wr := env.recvWait s.recvWaits
  let s1 : OracleState := { s with recvWaits := s.recvWaits + 1 }
  if wr = .ok then
    let hp := handlePackets env s1
    ⟨hp.res, hp.st, .waitRecv dz wr :: .handleCall :: hp.tr⟩
  else ⟨.ok (), s1, [.waitRecv dz wr]⟩

/-- The send-event poll of one `main` loop iteration: a zero-timeout wait on
the send-packet event, followed by `handle_packets` when it fired. -/
def pollSendStage (dz : Nat) (env : Env) (s : OracleState) : RunOut Unit :=
  let ws := env.sendWait s.sendWaits
  let s1 : OracleState := { s with sendWaits := s.sendWaits + 1 }
  if ws = .ok then
    let hp := handlePackets env s1
    ⟨hp.res, hp.st, .waitSend dz ws :: .handleCall :: hp.tr⟩
  else ⟨.ok (), s1, [.waitSend dz ws]⟩

/-- What one `main` loop iteration decides after its optional connection
attempt: leave the loop (Start canceled the connection attempt), or continue
with the given `is_connected` flag. -/
inductive MainCtl where
  | exitLoop
  | next (isConnected : Bool)
deriving DecidableEq, Repr

/-- The optional connection attempt of one `main` loop iteration: when A went
down while not yet connected, run `connect_to_portal`; `Canceled` leaves the
loop, `Connected` continues with `is_connected := true`. -/
def connectStage (dc : Nat) (env : Env) (fuel : Nat) (s : OracleState)
    (attempt isConnected : Bool) : RunOut MainCtl :=
  if attempt then
    let c := connectToPortal dc env fuel s
    let res2 : StepRes MainCtl :=
      match c.res with
      | .ok .Canceled => .ok .exitLoop
      | .ok .Connected => .ok (.next true)
      | .panicked m => .panicked m
      | .fuelOut => .fuelOut
    ⟨res2, c.st, [.connectCall] ++ c.tr⟩
  else ⟨.ok (.next isConnected), s, []⟩

/-- One pass plus the remainder of the `main` loop, with the durations of the
zero-timeout event polls (`dz`, `Duration::ZERO` in the source) and of the
waits inside `connect_to_portal` (`dc`, 100 ms in the source) as parameters.
The loop runs while `apt.main_loop()` is true; each iteration scans input,
breaks when Start is held, polls the receive event and handles packets when
it fired, polls the send event and handles packets when it fired, attempts
`connect_to_portal` when A went down while not connected (breaking when it is
canceled), and waits for vertical blank before the next iteration. -/
def mainLoop (dz dc : Nat) (env : Env) : Nat → OracleState → Bool → RunOut Unit
  | 0, s, _ => ⟨.fuelOut, s, []⟩
  | fuel + 1, s, isConnected =>
    let a := env.aptML s.aptChecks
    let s1 : OracleState := { s with aptChecks := s.aptChecks + 1 }
    if a = false then ⟨.ok (), s1, [.aptCheck a]⟩
    else
      let i := env.scan s1.scans
      let s2 : OracleState := { s1 with scans := s1.scans + 1 }
      if i.start_held then ⟨.ok (), s2, [.aptCheck a, .scanInput i]⟩
      else
        let r := (pollRecvStage dz env s2).andThen (pollSendStage dz env)
        match r.res with
        | .panicked m => ⟨.panicked m, r.st, .aptCheck a :: .scanInput i :: r.tr⟩
        | .fuelOut => ⟨.fuelOut, r.st, .aptCheck a :: .scanInput i :: r.tr⟩
        | .ok _ =>
          let c := connectStage dc env fuel r.st (i.a_down && !isConnected) isConnected
          match c.res with
          | .panicked m => ⟨.panicked m, c.st, .aptCheck a :: .scanInput i :: (r.tr ++ c.tr)⟩
          | .fuelOut => ⟨.fuelOut, c.st, .aptCheck a :: .scanInput i :: (r.tr ++ c.tr)⟩
          | .ok .exitLoop => ⟨.ok (), c.st, .aptCheck a :: .scanInput i :: (r.tr ++ c.tr)⟩
          | .ok (.next c2) =>
            let rest := mainLoop dz dc env fuel c.st c2
            ⟨rest.res, rest.st,
              .aptCheck a :: .scanInput i :: (r.tr ++ c.tr ++ .vblank :: rest.tr)⟩

/-! ## `SkylanderPortalDemo::new` -/

/-- The three event handles held by the demo struct. -/
structure DemoHandles where
  recvEventH : Nat
  sendEventH : Nat
  connEventH : Nat
deriving DecidableEq, Repr

/-- `SkylanderPortalDemo::new`: start the ir:USER service (`expect` on
failure), then acquire the receive, send, and connection-status event handles
in that order, each with `expect` on failure. -/
def demoNew (env : Env) : StepRes DemoHandles × List Ev :=
  match env.irInitR with
  | .error _ => (.panicked "ir:USER service setup error", [.irInitEv false])
  | .ok _ =>
    match env.recvEventR with
    | .error _ => (.panicked "ir:USER recv event error", [.irInitEv true, .recvEventEv false])
    | .ok hRecv =>
      match env.sendEventR with
      | .error _ =>
        (.panicked "ir:USER send event error",
          [.irInitEv true, .recvEventEv true, .sendEventEv false])
      | .ok hSend =>
        match env.connEventR with
        | .error _ =>
          (.panicked "ir:USER connection status event error",
            [.irInitEv true, .recvEventEv true, .sendEventEv true, .connEventEv false])
        | .ok hConn =>
          (.ok ⟨hRecv, hSend, hConn⟩,
            [.irInitEv true, .recvEventEv true, .sendEventEv true, .connEventEv true])

/-! ## The safe wrapper layer, modelled from the spec

The safe wrapper (`ctru::services::ir_user::IrUser`) is not part of this
source slice; only its callers are.  Per the spec it translates the native
library's integer result codes into typed outcomes. -/

/-- Modelled from the spec: the safe wrapper layer's translation of a raw
integer result code into a typed outcome — negative codes denote failure in
the native library, so they become a typed `IrError`; other codes become
success. -/
def wrapResultCode (code : Int) : Except IrError Unit :=
  if code < 0 then .error ⟨code⟩ else .ok ()

/-- Modelled from the spec: `IrUser::init`, returning the service handle on
success and a typed error otherwise. -/
def irUserInitW (code : Int) : Except IrError Unit := wrapResultCode code

/-- Modelled from the spec: `IrUser::get_recv_event`, returning the
receive-packet event handle on success and a typed error otherwise. -/
def getRecvEventW (code : Int) (h : Nat) : Except IrError Nat :=
  (wrapResultCode code).map fun _ => h

/-- Modelled from the spec: `IrUser::get_send_event`, returning the
send-packet event handle on success and a typed error otherwise. -/
def getSendEventW (code : Int) (h : Nat) : Except IrError Nat :=
  (wrapResultCode code).map fun _ => h

/-- Modelled from the spec: `IrUser::get_connection_status_event`, returning
the connection-status event handle on success and a typed error otherwise. -/
def getConnectionStatusEventW (code : Int) (h : Nat) : Except IrError Nat :=
  (wrapResultCode code).map fun _ => h

/-- Modelled from the spec: `IrUser::disconnect`, returning unit on success
and a typed error otherwise. -/
def disconnectW (code : Int) : Except IrError Unit := wrapResultCode code

/-- Modelled from the spec: `IrUser::get_packets`, returning the list of
received packets on success and a typed error otherwise. -/
def getPacketsW (code : Int) (pkts : List Packet) : Except IrError (List Packet) :=
  (wrapResultCode code).map fun _ => pkts

/-- Modelled from the spec: `IrUser::release_received_data`, returning unit
on success and a typed error otherwise. -/
def releaseReceivedDataW (code : Int) (_count : Nat) : Except IrError Unit :=
  wrapResultCode code

/-! ## Auxiliary definitions for the claim theorems -/

/-- Erase the wait-duration argument from an event, keeping everything else
(which call was made and what it returned).  Two traces equal after `stripMs`
make exactly the same foreign calls with the same outcomes, differing at most
in the timeout values passed through to the native library. -/
def stripMs : Ev → Ev
  | .waitRecv _ r => .waitRecv 0 r
  | .waitSend _ r => .waitSend 0 r
  | .waitConn _ r => .waitConn 0 r
  | e => e

/-- Re-encode every packet the environment delivers with `f`, and replace the
external CirclePadPro parser with `g`.  Used to state that the example has no
knowledge of the packet encoding: its behavior is invariant under any
re-encoding the external parser absorbs. -/
def remapPackets (env : Env) (f : Packet → Packet) (g : Packet → Except IrError Unit) : Env :=
  { env with
    getPacketsR := fun n => (env.getPacketsR n).map (List.map f)
    parseCpp := g }

/-- A concrete environment on which `handle_packets` gets a non-empty packet
list whose last packet the external CirclePadPro parser rejects. -/
def envC7bad : Env :=
  { aptML := fun _ => true
    scan := fun _ => ⟨false, false⟩
    recvWait := fun _ => .ok
    sendWait := fun _ => .timedOut
    connWait := fun _ => .ok
    statusInfo := fun _ => .NotConnected
    getPacketsR := fun _ => .ok [[1, 2, 3]]
    parseCpp := fun _ => .error ⟨-1⟩
    releaseR := fun _ => .ok ()
    disconnectR := fun _ => .ok ()
    irInitR := .ok ()
    recvEventR := .ok 1
    sendEventR := .ok 2
    connEventR := .ok 3 }

/-- A concrete environment in which Start is held at every input scan. -/
def envStart : Env :=
  { envC7bad with scan := fun _ => ⟨true, false⟩ }

/-- A concrete environment in which the connection is reported `Connected`
at once, the receive event fires, and the packets parse. -/
def envHappy : Env :=
  { envC7bad with
    statusInfo := fun _ => .Connected
    parseCpp := fun _ => .ok () }

/-- A concrete environment in which only the send-packet event fires. -/
def envSend : Env :=
  { envHappy with
    recvWait := fun _ => .timedOut
    sendWait := fun _ => .ok }

/-- A concrete environment in which no event fires and A goes down at every
scan. -/
def envConnA : Env :=
  { envHappy with
    scan := fun _ => ⟨false, true⟩
    recvWait := fun _ => .timedOut }

/-- A concrete environment in which no event fires and no key is pressed. -/
def envIdle : Env :=
  { envC7bad with recvWait := fun _ => .timedOut }

/-- Every raw result code is translated to exactly one typed outcome:
an error carrying the code when it is negative, success otherwise. -/
theorem wrapResultCode_cases (code : Int) :
    (code < 0 ∧ wrapResultCode code = .error ⟨code⟩) ∨
      (0 ≤ code ∧ wrapResultCode code = .ok ()) := by
  by_cases h : code < 0
  · exact Or.inl ⟨h, by simp [wrapResultCode, h]⟩
  · exact Or.inr ⟨le_of_not_lt h, by simp [wrapResultCode, h]⟩

/-! ## Claim theorems -/

/-- C3: `NDM_ExclusiveState` is a `u32`-represented enumeration with exactly
five states, whose discriminants are `EXCLUSIVE_STATE_NONE = 0`,
`EXCLUSIVE_STATE_INFRASTRUCTURE = 1`, `EXCLUSIVE_STATE_LOCAL_COMMUNICATIONS = 2`,
`EXCLUSIVE_STATE_STREETPASS = 3`, and `EXCLUSIVE_STATE_STREETPASS_DATA = 4`;
distinct states have distinct discriminants and every discriminant fits in a
`u32`. -/
theorem claim_C3_ndm_exclusive_state_layout :
    NDM_ExclusiveState.toU32 .EXCLUSIVE_STATE_NONE = 0 ∧
    NDM_ExclusiveState.toU32 .EXCLUSIVE_STATE_INFRASTRUCTURE = 1 ∧
    NDM_ExclusiveState.toU32 .EXCLUSIVE_STATE_LOCAL_COMMUNICATIONS = 2 ∧
    NDM_ExclusiveState.toU32 .EXCLUSIVE_STATE_STREETPASS = 3 ∧
    NDM_ExclusiveState.toU32 .EXCLUSIVE_STATE_STREETPASS_DATA = 4 ∧
    Fintype.card NDM_ExclusiveState = 5 ∧
    Function.Injective NDM_ExclusiveState.toU32 ∧
    ∀ s : NDM_ExclusiveState, NDM_ExclusiveState.toU32 s < 2 ^ 32 := by
  refine ⟨rfl, rfl, rfl, rfl, rfl, rfl, ?_, ?_⟩
  · intro a b h
    cases a <;> cases b <;> first | rfl | simp [NDM_ExclusiveState.toU32] at h
  · intro s
    cases s <;> simp [NDM_ExclusiveState.toU32]

/-- C4: the NDM raw binding module declares exactly four external entry
points — `ndmuInit` and `ndmuLeaveExclusiveState` with no arguments returning
a result code, `ndmuEnterExclusiveState` with one `NDM_ExclusiveState`
argument returning a result code, and `ndmuExit` with no arguments returning
nothing — and nothing else (the declarations carry no bodies by
construction of `ExternDecl`). -/
theorem claim_C4_ndm_extern_surface :
    ndmExternDecls.length = 4 ∧
    (ndmExternDecls.map ExternDecl.name).Nodup ∧
    ⟨"ndmuInit", [], .resultCode⟩ ∈ ndmExternDecls ∧
    ⟨"ndmuExit", [], .unitTy⟩ ∈ ndmExternDecls ∧
    ⟨"ndmuEnterExclusiveState", [.ndmExclusiveState], .resultCode⟩ ∈ ndmExternDecls ∧
    ⟨"ndmuLeaveExclusiveState", [], .resultCode⟩ ∈ ndmExternDecls := by
  refine ⟨rfl, ?_, ?_, ?_, ?_, ?_⟩ <;> decide

/-- C9: the exported `hidShouldUseIrrst` returns `false` unconditionally, so
the modelled libctru HID setup never brings up ir:rst (which is mutually
exclusive with ir:USER). -/
theorem claim_C9_hid_never_uses_irrst :
    hidShouldUseIrrst = false ∧ libctruBringsUpIrrst = false :=
  ⟨rfl, rfl⟩

/-- C2: every safe-wrapper operation the example invokes (`IrUser::init`,
`get_recv_event`, `get_send_event`, `get_connection_status_event`,
`disconnect`, `get_packets`, `release_received_data`) yields a typed outcome:
for every raw result code, either a success value or a typed `IrError` is
produced (never a bare integer), with the error exactly when the raw code is
negative. -/
theorem claim_C2_wrappers_return_typed_outcomes :
    ∀ (code : Int) (h : Nat) (pkts : List Packet),
      ((∃ v, irUserInitW code = .ok v) ∨ (∃ e, irUserInitW code = .error e)) ∧
      ((∃ v, getRecvEventW code h = .ok v) ∨ (∃ e, getRecvEventW code h = .error e)) ∧
      ((∃ v, getSendEventW code h = .ok v) ∨ (∃ e, getSendEventW code h = .error e)) ∧
      ((∃ v, getConnectionStatusEventW code h = .ok v) ∨
        (∃ e, getConnectionStatusEventW code h = .error e)) ∧
      ((∃ v, disconnectW code = .ok v) ∨ (∃ e, disconnectW code = .error e)) ∧
      ((∃ v, getPacketsW code pkts = .ok v) ∨ (∃ e, getPacketsW code pkts = .error e)) ∧
      ((∃ v, releaseReceivedDataW code 1 = .ok v) ∨
        (∃ e, releaseReceivedDataW code 1 = .error e)) ∧
      (irUserInitW code = .error ⟨code⟩ ↔ code < 0) := by
  intro code h pkts
  rcases wrapResultCode_cases code with ⟨hneg, hw⟩ | ⟨hpos, hw⟩ <;>
    simp [irUserInitW, getRecvEventW, getSendEventW, getConnectionStatusEventW,
      disconnectW, getPacketsW, releaseReceivedDataW, Except.map, hw]
  · exact hneg
  · omega

/-! ### C7: releasing received packet batches -/

/-- C7 counterexample: on `envC7bad`, `get_packets` returns the non-empty
list `[[1, 2, 3]]`, yet `handle_packets` performs no
`release_received_data` call at all — it aborts on the failed CirclePadPro
parse of the last packet before reaching the release. -/
theorem claim_C7_counterexample :
    envC7bad.getPacketsR OracleState.zero.getPacketsCalls = .ok [[1, 2, 3]] ∧
    ([[1, 2, 3]] : List Packet) ≠ [] ∧
    (handlePackets envC7bad OracleState.zero).tr.countP Ev.isRelease = 0 ∧
    (handlePackets envC7bad OracleState.zero).res =
      .panicked "Failed to parse CPP response from IR packet" := by
  refine ⟨rfl, by decide, ?_, ?_⟩ <;> rfl

/-- C7 (amended): for every invocation of `handle_packets`, if `get_packets`
returns an empty list the function returns early without calling
`release_received_data`; if it returns a non-empty list and the external
CirclePadPro parse of the last packet succeeds, `release_received_data` is
called exactly once, with a count equal to the number of packets returned
(when the parse fails, the demo aborts before releasing). -/
theorem claim_C7_release_matches_packet_count (env : Env) (s : OracleState) :
    (env.getPacketsR s.getPacketsCalls = .ok [] →
      (handlePackets env s).res = .ok () ∧
      (handlePackets env s).tr.countP Ev.isRelease = 0) ∧
    (∀ l p, env.getPacketsR s.getPacketsCalls = .ok l → l.getLast? = some p →
      env.parseCpp p = .ok () →
      (handlePackets env s).tr.countP Ev.isRelease = 1 ∧
      Ev.releaseEv l.length ∈ (handlePackets env s).tr) := by
  constructor
  · intro hempty
    simp [handlePackets, hempty, List.countP, List.countP.go, Ev.isRelease]
  · intro l p hok hlast hparse
    rcases hrel : env.releaseR s.releaseCalls with e | u <;>
      simp [handlePackets, hok, hlast, hparse, hrel, List.countP, List.countP.go, Ev.isRelease]

/-- C7 witness: on a concrete environment with two packets and a successful
parse, exactly one release of count 2 happens; on a concrete environment
with no packets, none happens. -/
theorem claim_C7_release_matches_packet_count_witness :
    ((handlePackets
        { envC7bad with getPacketsR := fun _ => .ok [[1], [2]], parseCpp := fun _ => .ok () }
        OracleState.zero).tr.countP Ev.isRelease = 1 ∧
      Ev.releaseEv 2 ∈
        (handlePackets
          { envC7bad with getPacketsR := fun _ => .ok [[1], [2]], parseCpp := fun _ => .ok () }
          OracleState.zero).tr) ∧
    ((handlePackets { envC7bad with getPacketsR := fun _ => .ok [] }
        OracleState.zero).res = .ok () ∧
      (handlePackets { envC7bad with getPacketsR := fun _ => .ok [] }
        OracleState.zero).tr.countP Ev.isRelease = 0) :=
  ⟨(claim_C7_release_matches_packet_count
        { envC7bad with getPacketsR := fun _ => .ok [[1], [2]], parseCpp := fun _ => .ok () }
        OracleState.zero).2 [[1], [2]] [2] rfl rfl rfl,
    (claim_C7_release_matches_packet_count
        { envC7bad with getPacketsR := fun _ => .ok [] }
        OracleState.zero).1 rfl⟩

/-! ### C6: service acquisition before event handles -/

/-- C6: the ir:USER service is started before anything else (the first
foreign call of `SkylanderPortalDemo::new` is always `IrUser::init`); when
`IrUser::init` fails the demo aborts without requesting any of the three
event handles; and each event-handle acquisition is fallible and aborts the
demo on error, in the order receive, send, connection-status. -/
theorem claim_C6_init_before_event_handles :
    (∀ env : Env, ∃ b, (demoNew env).2.head? = some (.irInitEv b)) ∧
    (∀ (env : Env) (e : IrError), env.irInitR = .error e →
      (demoNew env).1 = .panicked "ir:USER service setup error" ∧
      (demoNew env).2 = [.irInitEv false] ∧
      ∀ b, (Ev.recvEventEv b) ∉ (demoNew env).2 ∧
        (Ev.sendEventEv b) ∉ (demoNew env).2 ∧
        (Ev.connEventEv b) ∉ (demoNew env).2) ∧
    (∀ (env : Env) (e : IrError), env.irInitR = .ok () → env.recvEventR = .error e →
      (demoNew env).1 = .panicked "ir:USER recv event error" ∧
      (demoNew env).2 = [.irInitEv true, .recvEventEv false]) ∧
    (∀ (env : Env) (h : Nat) (e : IrError), env.irInitR = .ok () →
      env.recvEventR = .ok h → env.sendEventR = .error e →
      (demoNew env).1 = .panicked "ir:USER send event error" ∧
      (demoNew env).2 = [.irInitEv true, .recvEventEv true, .sendEventEv false]) ∧
    (∀ (env : Env) (h1 h2 : Nat) (e : IrError), env.irInitR = .ok () →
      env.recvEventR = .ok h1 → env.sendEventR = .ok h2 → env.connEventR = .error e →
      (demoNew env).1 = .panicked "ir:USER connection status event error" ∧
      (demoNew env).2 =
        [.irInitEv true, .recvEventEv true, .sendEventEv true, .connEventEv false]) ∧
    (∀ (env : Env) (h1 h2 h3 : Nat), env.irInitR = .ok () →
      env.recvEventR = .ok h1 → env.sendEventR = .ok h2 → env.connEventR = .ok h3 →
      (demoNew env).1 = .ok ⟨h1, h2, h3⟩) := by
  refine ⟨?_, ?_, ?_, ?_, ?_, ?_⟩
  · intro env
    rcases hi : env.irInitR with e | u
    · exact ⟨false, by simp [demoNew, hi]⟩
    · rcases hr : env.recvEventR with e | h <;>
        rcases hs : env.sendEventR with e2 | h2 <;>
        rcases hc : env.connEventR with e3 | h3 <;>
        exact ⟨true, by simp [demoNew, hi, hr, hs, hc]⟩
  · intro env e hi
    simp [demoNew, hi]
  · intro env e hi hr
    simp [demoNew, hi, hr]
  · intro env h e hi hr hs
    simp [demoNew, hi, hr, hs]
  · intro env h1 h2 e hi hr hs hc
    simp [demoNew, hi, hr, hs, hc]
  · intro env h1 h2 h3 hi hr hs hc
    simp [demoNew, hi, hr, hs, hc]

/-- C6 witness: concrete environments exercising the failing-`init` abort,
the failing receive-event abort, and the fully successful construction. -/
theorem claim_C6_init_before_event_handles_witness :
    ((demoNew { envC7bad with irInitR := .error ⟨-5⟩ }).1 =
        .panicked "ir:USER service setup error" ∧
      (demoNew { envC7bad with irInitR := .error ⟨-5⟩ }).2 = [.irInitEv false] ∧
      ∀ b, (Ev.recvEventEv b) ∉ (demoNew { envC7bad with irInitR := .error ⟨-5⟩ }).2 ∧
        (Ev.sendEventEv b) ∉ (demoNew { envC7bad with irInitR := .error ⟨-5⟩ }).2 ∧
        (Ev.connEventEv b) ∉ (demoNew { envC7bad with irInitR := .error ⟨-5⟩ }).2) ∧
    ((demoNew { envC7bad with recvEventR := .error ⟨-3⟩ }).1 =
        .panicked "ir:USER recv event error" ∧
      (demoNew { envC7bad with recvEventR := .error ⟨-3⟩ }).2 =
        [.irInitEv true, .recvEventEv false]) ∧
    (demoNew envC7bad).1 = .ok ⟨1, 2, 3⟩ :=
  ⟨claim_C6_init_before_event_handles.2.1 { envC7bad with irInitR := .error ⟨-5⟩ } ⟨-5⟩ rfl,
    claim_C6_init_before_event_handles.2.2.1 { envC7bad with recvEventR := .error ⟨-3⟩ } ⟨-3⟩
      rfl rfl,
    claim_C6_init_before_event_handles.2.2.2.2.2 envC7bad 1 2 3 rfl rfl rfl rfl⟩

/-! ### Helper lemmas about `connect_to_portal` -/

/-- The input-scan counter never decreases across the connection loop. -/
theorem connectLoop1_scans_le (d : Nat) (env : Env) :
    ∀ fuel s, s.scans ≤ (connectLoop1 d env fuel s).st.scans := by
  intro fuel
  induction fuel with
  | zero => intro s; simp [connectLoop1]
  | succ n ih =>
    intro s
    simp only [connectLoop1, printStatusInfo]
    by_cases h1 : (env.scan s.scans).start_held = true
    · simp [h1]
    · by_cases h2 : env.connWait s.connWaits = .failed
      · simp [h1, h2]
      · by_cases h3 : env.statusInfo (s.statusGets + 1) = .Connected
        · simp [h1, h2, h3]
        · rcases hd : env.disconnectR s.disconnects with e | u
          · simp [h1, h2, h3, hd]
          · by_cases h4 : env.connWait (s.connWaits + 1) = .failed
            · simp [h1, h2, h3, hd, h4]
            · simp only [h1, h2, h3, hd, h4]
              simp
              have h5 := ih ⟨s.aptChecks, s.scans + 1, s.recvWaits, s.sendWaits,
                s.connWaits + 1 + 1, s.statusGets + 1 + 1, s.getPacketsCalls,
                s.releaseCalls, s.disconnects + 1⟩
              exact le_trans (Nat.le_succ s.scans) h5

/-- If the connection loop ends `canceled`, Start was held at some input scan
at or after the loop's starting scan index. -/
theorem connectLoop1_canceled_start (d : Nat) (env : Env) :
    ∀ fuel s, (connectLoop1 d env fuel s).res = .ok .canceled →
      ∃ i, s.scans ≤ i ∧ (env.scan i).start_held = true := by
  intro fuel
  induction fuel with
  | zero => intro s h; simp [connectLoop1] at h
  | succ n ih =>
    intro s h
    simp only [connectLoop1, printStatusInfo] at h
    by_cases h1 : (env.scan s.scans).start_held = true
    · exact ⟨s.scans, le_refl _, h1⟩
    · by_cases h2 : env.connWait s.connWaits = .failed
      · simp [h1, h2] at h
      · by_cases h3 : env.statusInfo (s.statusGets + 1) = .Connected
        · simp [h1, h2, h3] at h
        · rcases hd : env.disconnectR s.disconnects with e | u
          · simp [h1, h2, h3, hd] at h
          · by_cases h4 : env.connWait (s.connWaits + 1) = .failed
            · simp [h1, h2, h3, hd, h4] at h
            · simp [h1, h2, h3, hd, h4] at h
              obtain ⟨i, hi, hheld⟩ := ih _ h
              exact ⟨i, le_trans (Nat.le_succ _) hi, hheld⟩

/-- If the first-packet loop ends `canceled`, Start was held at some input
scan at or after the loop's starting scan index. -/
theorem connectLoop2_canceled_start (d : Nat) (env : Env) :
    ∀ fuel s, (connectLoop2 d env fuel s).res = .ok .canceled →
      ∃ i, s.scans ≤ i ∧ (env.scan i).start_held = true := by
  intro fuel
  induction fuel with
  | zero => intro s h; simp [connectLoop2] at h
  | succ n ih =>
    intro s h
    simp only [connectLoop2, printStatusInfo] at h
    by_cases h1 : (env.scan s.scans).start_held = true
    · exact ⟨s.scans, le_refl _, h1⟩
    · by_cases h2 : env.recvWait s.recvWaits = .ok
      · simp only [h1, h2] at h
        simp at h
        split at h <;> simp_all
      · simp [h1, h2] at h
        obtain ⟨i, hi, hheld⟩ := ih _ h
        exact ⟨i, le_trans (Nat.le_succ _) hi, hheld⟩

/-- When the connection loop breaks out normally, its final foreign call is
the status read that came back `Connected`. -/
theorem connectLoop1_break_trace (d : Nat) (env : Env) :
    ∀ fuel s, (connectLoop1 d env fuel s).res = .ok .connectedBreak →
      ∃ t, (connectLoop1 d env fuel s).tr = t ++ [.statusRead .Connected] := by
  intro fuel
  induction fuel with
  | zero => intro s h; simp [connectLoop1] at h
  | succ n ih =>
    intro s h
    simp only [connectLoop1, printStatusInfo] at h ⊢
    by_cases h1 : (env.scan s.scans).start_held = true
    · simp [h1] at h
    · by_cases h2 : env.connWait s.connWaits = .failed
      · simp [h1, h2] at h
      · by_cases h3 : env.statusInfo (s.statusGets + 1) = .Connected
        · refine ⟨[.scanInput (env.scan s.scans), .waitConn d (env.connWait s.connWaits),
            .statusRead (env.statusInfo s.statusGets)], ?_⟩
          simp [h1, h2, h3]
        · rcases hd : env.disconnectR s.disconnects with e | u
          · simp [h1, h2, h3, hd] at h
          · by_cases h4 : env.connWait (s.connWaits + 1) = .failed
            · simp [h1, h2, h3, hd, h4] at h
            · simp [h1, h2, h3, hd, h4] at h ⊢
              obtain ⟨t, ht⟩ := ih _ h
              refine ⟨.scanInput (env.scan s.scans) ::
                .waitConn d (env.connWait s.connWaits) ::
                .statusRead (env.statusInfo s.statusGets) ::
                .statusRead (env.statusInfo (s.statusGets + 1)) ::
                .disconnectEv :: .waitConn d (env.connWait (s.connWaits + 1)) :: t, ?_⟩
              rw [ht]
              simp

/-- When the first-packet loop succeeds, its trace ends with a successful
receive-event wait, a status read, and the `handle_packets` call. -/
theorem connectLoop2_got_trace (d : Nat) (env : Env) :
    ∀ fuel s, (connectLoop2 d env fuel s).res = .ok .gotFirstPacket →
      ∃ t st u, (connectLoop2 d env fuel s).tr =
        t ++ .waitRecv d .ok :: .statusRead st :: .handleCall :: u := by
  intro fuel
  induction fuel with
  | zero => intro s h; simp [connectLoop2] at h
  | succ n ih =>
    intro s h
    simp only [connectLoop2, printStatusInfo] at h ⊢
    by_cases h1 : (env.scan s.scans).start_held = true
    · simp [h1] at h
    · by_cases h2 : env.recvWait s.recvWaits = .ok
      · simp only [h1, h2] at h ⊢
        simp at h ⊢
        exact ⟨[.scanInput (env.scan s.scans)], env.statusInfo s.statusGets, _, rfl⟩
      · simp [h1, h2] at h ⊢
        obtain ⟨t, st, u, ht⟩ := ih _ h
        refine ⟨.scanInput (env.scan s.scans) ::
          .waitRecv d (env.recvWait s.recvWaits) ::
          .statusRead (env.statusInfo s.statusGets) :: t, st, u, ?_⟩
        rw [ht]
        simp

/-- C8: (i) `connect_to_portal` returns `Canceled` only when Start is held at
an input scan made inside one of its two loops; (ii) it returns `Connected`
only after a status read observed `Connected` and, later, the receive event
fired and `handle_packets` ran; (iii) whenever the connection loop's decision
status read observes a value other than `Connected` (Start not held, wait not
failed), the very next foreign call is `disconnect`, before any further
connection-status wait. -/
theorem claim_C8_connect_to_portal_behavior :
    (∀ d env fuel s, (connectToPortal d env fuel s).res = .ok .Canceled →
      ∃ i, s.scans ≤ i ∧ (env.scan i).start_held = true) ∧
    (∀ d env fuel s, (connectToPortal d env fuel s).res = .ok .Connected →
      ∃ t1 t2 st t3, (connectToPortal d env fuel s).tr =
        t1 ++ .statusRead .Connected ::
          (t2 ++ .waitRecv d .ok :: .statusRead st :: .handleCall :: t3)) ∧
    (∀ d env fuel s, (env.scan s.scans).start_held = false →
      env.connWait s.connWaits ≠ .failed →
      env.statusInfo (s.statusGets + 1) ≠ .Connected →
      (connectLoop1 d env (fuel + 1) s).tr.take 5 =
        [.scanInput (env.scan s.scans), .waitConn d (env.connWait s.connWaits),
          .statusRead (env.statusInfo s.statusGets),
          .statusRead (env.statusInfo (s.statusGets + 1)), .disconnectEv]) := by
  refine ⟨?_, ?_, ?_⟩
  · intro d env fuel s h
    rcases hr1 : (connectLoop1 d env fuel s).res with x | m
    · cases x
      · exact connectLoop1_canceled_start d env fuel s hr1
      · simp only [connectToPortal, hr1] at h
        rcases hr2 : (connectLoop2 d env fuel (connectLoop1 d env fuel s).st).res with y | m
        · cases y
          · obtain ⟨i, hi, hheld⟩ :=
              connectLoop2_canceled_start d env fuel (connectLoop1 d env fuel s).st hr2
            exact ⟨i, le_trans (connectLoop1_scans_le d env fuel s) hi, hheld⟩
          · simp [hr2] at h
        · simp [hr2] at h
        · simp [hr2] at h
    · simp [connectToPortal, hr1] at h
    · simp [connectToPortal, hr1] at h
  · intro d env fuel s h
    rcases hr1 : (connectLoop1 d env fuel s).res with x | m
    · cases x
      · simp [connectToPortal, hr1] at h
      · rcases hr2 : (connectLoop2 d env fuel (connectLoop1 d env fuel s).st).res with y | m
        · cases y
          · simp [connectToPortal, hr1, hr2] at h
          · obtain ⟨t, ht1⟩ := connectLoop1_break_trace d env fuel s hr1
            obtain ⟨t', st, u, ht2⟩ :=
              connectLoop2_got_trace d env fuel (connectLoop1 d env fuel s).st hr2
            refine ⟨t, t', st, u, ?_⟩
            simp only [connectToPortal, hr1, hr2]
            rw [ht1, ht2]
            simp
        · simp [connectToPortal, hr1, hr2] at h
        · simp [connectToPortal, hr1, hr2] at h
    · simp [connectToPortal, hr1] at h
    · simp [connectToPortal, hr1] at h
  · intro d env fuel s h1 h2 h3
    rcases hd : env.disconnectR s.disconnects with e | u
    · simp [connectLoop1, printStatusInfo, h1, h2, h3, hd]
    · by_cases h4 : env.connWait (s.connWaits + 1) = .failed
      · simp [connectLoop1, printStatusInfo, h1, h2, h3, hd, h4]
      · simp [connectLoop1, printStatusInfo, h1, h2, h3, hd, h4]

/-- C8 witness: on `envStart` (Start always held) the connection attempt is
canceled and indeed some scan at or after index 0 has Start held; on
`envHappy` the attempt connects; on `envC7bad` (status never `Connected`) the
connection loop's first iteration ends in a disconnect call right after the
not-`Connected` decision read. -/
theorem claim_C8_connect_to_portal_behavior_witness :
    (∃ i, OracleState.zero.scans ≤ i ∧ (envStart.scan i).start_held = true) ∧
    (∃ t1 t2 st t3, (connectToPortal 100 envHappy 1 OracleState.zero).tr =
      t1 ++ .statusRead .Connected ::
        (t2 ++ .waitRecv 100 .ok :: .statusRead st :: .handleCall :: t3)) ∧
    (connectLoop1 100 envC7bad (0 + 1) OracleState.zero).tr.take 5 =
      [.scanInput (envC7bad.scan OracleState.zero.scans),
        .waitConn 100 (envC7bad.connWait OracleState.zero.connWaits),
        .statusRead (envC7bad.statusInfo OracleState.zero.statusGets),
        .statusRead (envC7bad.statusInfo (OracleState.zero.statusGets + 1)), .disconnectEv] :=
  ⟨claim_C8_connect_to_portal_behavior.1 100 envStart 1 OracleState.zero rfl,
    claim_C8_connect_to_portal_behavior.2.1 100 envHappy 1 OracleState.zero rfl,
    claim_C8_connect_to_portal_behavior.2.2 100 envC7bad 0 OracleState.zero rfl
      (by decide) (by decide)⟩

/-- C5: structure of one `main` loop iteration.  (i) When Start is held at
the iteration's input scan, the loop exits at once: the iteration's whole
trace is the APT check and the scan, with no packet handling, no connection
attempt, and nothing after.  (ii) When Start is not held and the receive
event fired, `handle_packets` runs immediately after the receive poll.
(iii) When additionally the receive event did not fire but the send event
did, `handle_packets` runs immediately after the send poll.  (iv) When
neither event fired and A went down while not yet connected,
`connect_to_portal` is attempted right after the polls.  (v) When neither
event fired and no connection is attempted, the iteration ends with the
vertical-blank wait and the loop recurses. -/
theorem claim_C5_main_loop_iteration (dz dc : Nat) (env : Env) (fuel : Nat)
    (s : OracleState) (c : Bool) :
    (env.aptML s.aptChecks = true → (env.scan s.scans).start_held = true →
      mainLoop dz dc env (fuel + 1) s c =
        ⟨.ok (), ⟨s.aptChecks + 1, s.scans + 1, s.recvWaits, s.sendWaits, s.connWaits,
            s.statusGets, s.getPacketsCalls, s.releaseCalls, s.disconnects⟩,
          [.aptCheck true, .scanInput (env.scan s.scans)]⟩ ∧
      Ev.handleCall ∉ (mainLoop dz dc env (fuel + 1) s c).tr ∧
      Ev.connectCall ∉ (mainLoop dz dc env (fuel + 1) s c).tr) ∧
    (env.aptML s.aptChecks = true → (env.scan s.scans).start_held = false →
      env.recvWait s.recvWaits = .ok →
      (mainLoop dz dc env (fuel + 1) s c).tr.take 4 =
        [.aptCheck true, .scanInput (env.scan s.scans), .waitRecv dz .ok, .handleCall]) ∧
    (env.aptML s.aptChecks = true → (env.scan s.scans).start_held = false →
      env.recvWait s.recvWaits ≠ .ok → env.sendWait s.sendWaits = .ok →
      (mainLoop dz dc env (fuel + 1) s c).tr.take 5 =
        [.aptCheck true, .scanInput (env.scan s.scans),
          .waitRecv dz (env.recvWait s.recvWaits), .waitSend dz .ok, .handleCall]) ∧
    (env.aptML s.aptChecks = true → (env.scan s.scans).start_held = false →
      env.recvWait s.recvWaits ≠ .ok → env.sendWait s.sendWaits ≠ .ok →
      (env.scan s.scans).a_down = true → c = false →
      (mainLoop dz dc env (fuel + 1) s c).tr.take 5 =
        [.aptCheck true, .scanInput (env.scan s.scans),
          .waitRecv dz (env.recvWait s.recvWaits),
          .waitSend dz (env.sendWait s.sendWaits), .connectCall]) ∧
    (env.aptML s.aptChecks = true → (env.scan s.scans).start_held = false →
      env.recvWait s.recvWaits ≠ .ok → env.sendWait s.sendWaits ≠ .ok →
      ((env.scan s.scans).a_down && !c) = false →
      mainLoop dz dc env (fuel + 1) s c =
        ⟨(mainLoop dz dc env fuel
            ⟨s.aptChecks + 1, s.scans + 1, s.recvWaits + 1, s.sendWaits + 1, s.connWaits,
              s.statusGets, s.getPacketsCalls, s.releaseCalls, s.disconnects⟩ c).res,
          (mainLoop dz dc env fuel
            ⟨s.aptChecks + 1, s.scans + 1, s.recvWaits + 1, s.sendWaits + 1, s.connWaits,
              s.statusGets, s.getPacketsCalls, s.releaseCalls, s.disconnects⟩ c).st,
          [.aptCheck true, .scanInput (env.scan s.scans),
            .waitRecv dz (env.recvWait s.recvWaits),
            .waitSend dz (env.sendWait s.sendWaits), .vblank] ++
          (mainLoop dz dc env fuel
            ⟨s.aptChecks + 1, s.scans + 1, s.recvWaits + 1, s.sendWaits + 1, s.connWaits,
              s.statusGets, s.getPacketsCalls, s.releaseCalls, s.disconnects⟩ c).tr⟩) := by
  refine ⟨?_, ?_, ?_, ?_, ?_⟩
  · intro ha hs
    have heq : mainLoop dz dc env (fuel + 1) s c =
        ⟨.ok (), ⟨s.aptChecks + 1, s.scans + 1, s.recvWaits, s.sendWaits, s.connWaits,
            s.statusGets, s.getPacketsCalls, s.releaseCalls, s.disconnects⟩,
          [.aptCheck true, .scanInput (env.scan s.scans)]⟩ := by
      simp [mainLoop, ha, hs]
    refine ⟨heq, ?_, ?_⟩ <;> rw [heq] <;> simp
  · intro ha hs hw
    simp [mainLoop, RunOut.andThen, pollRecvStage, ha, hs, hw]
    split <;> try split
    all_goals try split
    all_goals simp
  · intro ha hs hw hw2
    simp [mainLoop, RunOut.andThen, pollRecvStage, pollSendStage, ha, hs, hw, hw2]
    split <;> try split
    all_goals simp
  · intro ha hs hw hw2 had hc
    subst hc
    rcases hc2 : (connectToPortal dc env fuel
        ⟨s.aptChecks + 1, s.scans + 1, s.recvWaits + 1, s.sendWaits + 1, s.connWaits,
          s.statusGets, s.getPacketsCalls, s.releaseCalls, s.disconnects⟩).res with x | m
    · cases x <;>
        simp [mainLoop, RunOut.andThen, pollRecvStage, pollSendStage, connectStage,
          ha, hs, hw, hw2, had, hc2]
    · simp [mainLoop, RunOut.andThen, pollRecvStage, pollSendStage, connectStage,
        ha, hs, hw, hw2, had, hc2]
    · simp [mainLoop, RunOut.andThen, pollRecvStage, pollSendStage, connectStage,
        ha, hs, hw, hw2, had, hc2]
  · intro ha hs hw hw2 hb
    simp [mainLoop, RunOut.andThen, pollRecvStage, pollSendStage, connectStage,
      ha, hs, hw, hw2, hb]

/-- C5 witness: the five iteration shapes at concrete environments — Start
held (`envStart`), receive event fired (`envHappy`), send event fired
(`envSend`), A pressed while disconnected (`envConnA`), and an idle iteration
(`envIdle`). -/
theorem claim_C5_main_loop_iteration_witness :
    (mainLoop 0 100 envStart (3 + 1) OracleState.zero false =
      ⟨.ok (), ⟨0 + 1, 0 + 1, 0, 0, 0, 0, 0, 0, 0⟩,
        [.aptCheck true, .scanInput (envStart.scan OracleState.zero.scans)]⟩ ∧
      Ev.handleCall ∉ (mainLoop 0 100 envStart (3 + 1) OracleState.zero false).tr ∧
      Ev.connectCall ∉ (mainLoop 0 100 envStart (3 + 1) OracleState.zero false).tr) ∧
    (mainLoop 0 100 envHappy (0 + 1) OracleState.zero false).tr.take 4 =
      [.aptCheck true, .scanInput (envHappy.scan OracleState.zero.scans),
        .waitRecv 0 .ok, .handleCall] ∧
    (mainLoop 0 100 envSend (0 + 1) OracleState.zero false).tr.take 5 =
      [.aptCheck true, .scanInput (envSend.scan OracleState.zero.scans),
        .waitRecv 0 (envSend.recvWait OracleState.zero.recvWaits), .waitSend 0 .ok,
        .handleCall] ∧
    (mainLoop 0 100 envConnA (0 + 1) OracleState.zero false).tr.take 5 =
      [.aptCheck true, .scanInput (envConnA.scan OracleState.zero.scans),
        .waitRecv 0 (envConnA.recvWait OracleState.zero.recvWaits),
        .waitSend 0 (envConnA.sendWait OracleState.zero.sendWaits), .connectCall] ∧
    mainLoop 0 100 envIdle (0 + 1) OracleState.zero false =
      ⟨(mainLoop 0 100 envIdle 0 ⟨0 + 1, 0 + 1, 0 + 1, 0 + 1, 0, 0, 0, 0, 0⟩ false).res,
        (mainLoop 0 100 envIdle 0 ⟨0 + 1, 0 + 1, 0 + 1, 0 + 1, 0, 0, 0, 0, 0⟩ false).st,
        [.aptCheck true, .scanInput (envIdle.scan OracleState.zero.scans),
          .waitRecv 0 (envIdle.recvWait OracleState.zero.recvWaits),
          .waitSend 0 (envIdle.sendWait OracleState.zero.sendWaits), .vblank] ++
        (mainLoop 0 100 envIdle 0 ⟨0 + 1, 0 + 1, 0 + 1, 0 + 1, 0, 0, 0, 0, 0⟩ false).tr⟩ :=
  ⟨(claim_C5_main_loop_iteration 0 100 envStart 3 OracleState.zero false).1 rfl rfl,
    (claim_C5_main_loop_iteration 0 100 envHappy 0 OracleState.zero false).2.1 rfl rfl rfl,
    (claim_C5_main_loop_iteration 0 100 envSend 0 OracleState.zero false).2.2.1 rfl rfl
      (by decide) rfl,
    (claim_C5_main_loop_iteration 0 100 envConnA 0 OracleState.zero false).2.2.2.1 rfl rfl
      (by decide) (by decide) rfl rfl,
    (claim_C5_main_loop_iteration 0 100 envIdle 0 OracleState.zero false).2.2.2.2 rfl rfl
      (by decide) (by decide) rfl⟩

/-! ### Helper lemmas for the foreign-surface claim -/

/-- The connection loop never touches the packet streams, so re-encoding
packets and swapping the parser leaves it unchanged. -/
theorem connectLoop1_remap (d : Nat) (env : Env) (f : Packet → Packet)
    (g : Packet → Except IrError Unit) :
    ∀ fuel s, connectLoop1 d (remapPackets env f g) fuel s = connectLoop1 d env fuel s := by
  have hscan : (remapPackets env f g).scan = env.scan := rfl
  have hconn : (remapPackets env f g).connWait = env.connWait := rfl
  have hstat : (remapPackets env f g).statusInfo = env.statusInfo := rfl
  have hdisc : (remapPackets env f g).disconnectR = env.disconnectR := rfl
  intro fuel
  induction fuel with
  | zero => intro s; rfl
  | succ n ih =>
    intro s
    simp only [connectLoop1, printStatusInfo, hscan, hconn, hstat, hdisc, ih]

/-- `handle_packets` is invariant under any re-encoding of the packet bytes
that the external parser absorbs: it inspects only the number of packets and
the parser's verdict, never the bytes themselves. -/
theorem handlePackets_remap (env : Env) (f : Packet → Packet)
    (g : Packet → Except IrError Unit) (hfg : ∀ p, g (f p) = env.parseCpp p) :
    ∀ s, handlePackets (remapPackets env f g) s = handlePackets env s := by
  intro s
  simp only [handlePackets, remapPackets]
  rcases hgp : env.getPacketsR s.getPacketsCalls with e | l
  · simp [hgp, Except.map]
  · simp only [hgp, Except.map]
    rw [List.getLast?_map]
    rcases hl : l.getLast? with _ | p
    · simp
    · simp only [Option.map_some']
      rw [hfg p]
      simp

/-- The first-packet loop touches packets only through `handle_packets`. -/
theorem connectLoop2_remap (d : Nat) (env : Env) (f : Packet → Packet)
    (g : Packet → Except IrError Unit) (hfg : ∀ p, g (f p) = env.parseCpp p) :
    ∀ fuel s, connectLoop2 d (remapPackets env f g) fuel s = connectLoop2 d env fuel s := by
  have hscan : (remapPackets env f g).scan = env.scan := rfl
  have hrecv : (remapPackets env f g).recvWait = env.recvWait := rfl
  have hstat : (remapPackets env f g).statusInfo = env.statusInfo := rfl
  intro fuel
  induction fuel with
  | zero => intro s; rfl
  | succ n ih =>
    intro s
    simp only [connectLoop2, printStatusInfo, hscan, hrecv, hstat, ih,
      handlePackets_remap env f g hfg]

/-- `connect_to_portal` is invariant under packet re-encoding absorbed by the
external parser. -/
theorem connectToPortal_remap (d : Nat) (env : Env) (f : Packet → Packet)
    (g : Packet → Except IrError Unit) (hfg : ∀ p, g (f p) = env.parseCpp p)
    (fuel : Nat) (s : OracleState) :
    connectToPortal d (remapPackets env f g) fuel s = connectToPortal d env fuel s := by
  simp only [connectToPortal, connectLoop1_remap, connectLoop2_remap d env f g hfg]

/-- The wait duration passed to the connection loop influences neither its
result nor its final state, and the traces agree after erasing durations. -/
theorem connectLoop1_dur (d d' : Nat) (env : Env) :
    ∀ fuel s,
      (connectLoop1 d env fuel s).res = (connectLoop1 d' env fuel s).res ∧
      (connectLoop1 d env fuel s).st = (connectLoop1 d' env fuel s).st ∧
      (connectLoop1 d env fuel s).tr.map stripMs =
        (connectLoop1 d' env fuel s).tr.map stripMs := by
  intro fuel
  induction fuel with
  | zero => intro s; exact ⟨rfl, rfl, rfl⟩
  | succ n ih =>
    intro s
    by_cases h1 : (env.scan s.scans).start_held = true
    · simp [connectLoop1, h1, stripMs]
    · by_cases h2 : env.connWait s.connWaits = .failed
      · simp [connectLoop1, printStatusInfo, h1, h2, stripMs]
      · by_cases h3 : env.statusInfo (s.statusGets + 1) = .Connected
        · simp [connectLoop1, printStatusInfo, h1, h2, h3, stripMs]
        · rcases hd : env.disconnectR s.disconnects with e | u
          · simp [connectLoop1, printStatusInfo, h1, h2, h3, hd, stripMs]
          · by_cases h4 : env.connWait (s.connWaits + 1) = .failed
            · simp [connectLoop1, printStatusInfo, h1, h2, h3, hd, h4, stripMs]
            · have h5 := ih ⟨s.aptChecks, s.scans + 1, s.recvWaits, s.sendWaits,
                s.connWaits + 1 + 1, s.statusGets + 1 + 1, s.getPacketsCalls,
                s.releaseCalls, s.disconnects + 1⟩
              simp [connectLoop1, printStatusInfo, h1, h2, h3, hd, h4, stripMs,
                h5.1, h5.2.1, h5.2.2]

/-- The wait duration passed to the first-packet loop influences neither its
result nor its final state, and the traces agree after erasing durations. -/
theorem connectLoop2_dur (d d' : Nat) (env : Env) :
    ∀ fuel s,
      (connectLoop2 d env fuel s).res = (connectLoop2 d' env fuel s).res ∧
      (connectLoop2 d env fuel s).st = (connectLoop2 d' env fuel s).st ∧
      (connectLoop2 d env fuel s).tr.map stripMs =
        (connectLoop2 d' env fuel s).tr.map stripMs := by
  intro fuel
  induction fuel with
  | zero => intro s; exact ⟨rfl, rfl, rfl⟩
  | succ n ih =>
    intro s
    by_cases h1 : (env.scan s.scans).start_held = true
    · simp [connectLoop2, h1, stripMs]
    · by_cases h2 : env.recvWait s.recvWaits = .ok
      · simp [connectLoop2, printStatusInfo, h1, h2, stripMs]
      · have h5 := ih ⟨s.aptChecks, s.scans + 1, s.recvWaits + 1, s.sendWaits,
          s.connWaits, s.statusGets + 1, s.getPacketsCalls, s.releaseCalls, s.disconnects⟩
        simp [connectLoop2, printStatusInfo, h1, h2, stripMs, h5.1, h5.2.1, h5.2.2]

/-- The 100 ms wait duration of `connect_to_portal` influences neither its
result nor its final state, and the traces agree after erasing durations. -/
theorem connectToPortal_dur (d d' : Nat) (env : Env) (fuel : Nat) (s : OracleState) :
    (connectToPortal d env fuel s).res = (connectToPortal d' env fuel s).res ∧
    (connectToPortal d env fuel s).st = (connectToPortal d' env fuel s).st ∧
    (connectToPortal d env fuel s).tr.map stripMs =
      (connectToPortal d' env fuel s).tr.map stripMs := by
  obtain ⟨hres1, hst1, htr1⟩ := connectLoop1_dur d d' env fuel s
  simp only [connectToPortal, ← hres1, ← hst1]
  rcases hr1 : (connectLoop1 d env fuel s).res with x | m
  · cases x
    · simp [hr1, hst1, htr1]
    · obtain ⟨hres2, hst2, htr2⟩ :=
        connectLoop2_dur d d' env fuel ((connectLoop1 d env fuel s).st)
      simp only [hr1, ← hres2, ← hst2]
      rcases hr2 : (connectLoop2 d env fuel ((connectLoop1 d env fuel s).st)).res with y | m
      · cases y <;> simp [hr2, hst2, htr1, htr2]
      · simp [hr2, hst2, htr1, htr2]
      · simp [hr2, hst2, htr1, htr2]
  · simp [hr1, hst1, htr1]
  · simp [hr1, hst1, htr1]

/-- C1: the example's connection procedure and packet handling make no
timing, retry, or buffer-framing decisions of their own — every decision
branches only on the outcomes of foreign calls.  (i) The wait duration the
example passes through to the native library influences neither the result,
nor the final call counters, nor which foreign calls are made with which
outcomes (traces agree once the pass-through duration argument is erased).
(ii) / (iii) Re-encoding every packet's bytes — with the external
CirclePadPro parser absorbing the re-encoding — leaves `handle_packets` and
`connect_to_portal` entirely unchanged: the example never interprets packet
contents or buffer framing itself. -/
theorem claim_C1_substantive_logic_behind_ffi :
    (∀ d d' env fuel s,
      (connectToPortal d env fuel s).res = (connectToPortal d' env fuel s).res ∧
      (connectToPortal d env fuel s).st = (connectToPortal d' env fuel s).st ∧
      (connectToPortal d env fuel s).tr.map stripMs =
        (connectToPortal d' env fuel s).tr.map stripMs) ∧
    (∀ env f g, (∀ p, g (f p) = env.parseCpp p) →
      ∀ s, handlePackets (remapPackets env f g) s = handlePackets env s) ∧
    (∀ d env f g, (∀ p, g (f p) = env.parseCpp p) →
      ∀ fuel s, connectToPortal d (remapPackets env f g) fuel s = connectToPortal d env fuel s) :=
  ⟨fun d d' env fuel s => connectToPortal_dur d d' env fuel s,
    fun env f g hfg s => handlePackets_remap env f g hfg s,
    fun d env f g hfg fuel s => connectToPortal_remap d env f g hfg fuel s⟩

/-- C1 witness: at `envHappy`, changing the wait duration from 100 to 7
leaves the result of `connect_to_portal` unchanged, and prepending a byte to
every packet (with a parser absorbing it) leaves `handle_packets` and
`connect_to_portal` unchanged. -/
theorem claim_C1_substantive_logic_behind_ffi_witness :
    ((connectToPortal 100 envHappy 2 OracleState.zero).res =
        (connectToPortal 7 envHappy 2 OracleState.zero).res ∧
      (connectToPortal 100 envHappy 2 OracleState.zero).st =
        (connectToPortal 7 envHappy 2 OracleState.zero).st ∧
      (connectToPortal 100 envHappy 2 OracleState.zero).tr.map stripMs =
        (connectToPortal 7 envHappy 2 OracleState.zero).tr.map stripMs) ∧
    handlePackets
        (remapPackets envHappy (fun p => 0 :: p) (fun _ => .ok ())) OracleState.zero =
      handlePackets envHappy OracleState.zero ∧
    connectToPortal 100
        (remapPackets envHappy (fun p => 0 :: p) (fun _ => .ok ())) 2 OracleState.zero =
      connectToPortal 100 envHappy 2 OracleState.zero :=
  ⟨claim_C1_substantive_logic_behind_ffi.1 100 7 envHappy 2 OracleState.zero,
    claim_C1_substantive_logic_behind_ffi.2.1 envHappy (fun p => 0 :: p) (fun _ => .ok ())
      (fun _ => rfl) OracleState.zero,
    claim_C1_substantive_logic_behind_ffi.2.2 100 envHappy (fun p => 0 :: p) (fun _ => .ok ())
      (fun _ => rfl) 2 OracleState.zero⟩

end CtruSkylander
